import Mathlib

/-!
# Window-manager switcher (`wm/switcher.go`): embedding and checked properties

The Go type `Switcher` becomes a record of its data fields; every method that
mutates the receiver takes the record and returns the new one.  Calls that leave
the process (D-Bus, X11, the config files, the OSD, the hardware probes) are
answered by a `World` record and leave an `Event` in a trace, in program order.

Conventions:
* a Go `error` is `Option Error` (`none` is `nil`); a `(value, error)` pair is an
  `Except Error value`;
* `s.mu` is not represented: every method is run atomically, one at a time;
* `s.logger` calls carry no data back into the program and are left out;
* the pointers `s.userConfig` and `s.systemConfig` are taken to be allocated, so
  the records hold the pointed-to values.
-/

namespace Wm

/-- A Go `error` value, identified by its message. -/
abbrev Error := String

def swDBusDest : String := "com.deepin.WMSwitcher"
def swDBusPath : String := "/com/deepin/WMSwitcher"
def swDBusIFC : String := swDBusDest

def deepin3DWM : String := "deepin-wm"
def deepin2DWM : String := "deepin-metacity"
def unknownWM : String := "unknown"

def osdSwitch2DWM : String := "SwitchWM2D"
def osdSwitch3DWM : String := "SwitchWM3D"
def osdSwitchWMError : String := "SwitchWMError"

/-- The Go map `wmNameMap`, read with `wmNameMap[k]`: a key without an entry
yields the zero value of `string`, the empty string. -/
def wmNameMap (k : String) : String :=
  if k = deepin3DWM then "deepin wm"
  else if k = deepin2DWM then "deepin metacity"
  else ""

/-- Modelled from the spec: the type `userConfig` is declared in another file of
the package; the spec gives it the two fields `lastWM` and `wait`, and the source
builds it as `userConfig{LastWM: ..., Wait: ...}`. -/
structure userConfig where
  LastWM : String
  Wait : Bool
deriving DecidableEq, Repr

/-- Modelled from the spec: the type `systemConfig` is declared in another file of
the package; the source reads its field `AllowSwitch`. -/
structure systemConfig where
  AllowSwitch : Bool
deriving DecidableEq, Repr

/-- The data fields of the Go struct `Switcher` (`logger`, `mu`, the D-Bus proxy
`wm` and the callback slot `WMChanged` hold no program data). -/
structure Switcher where
  userConfig : userConfig
  systemConfig : systemConfig
  wmStartupCount : Int
  currentWM : String
  wmChooserLaunched : Bool
deriving DecidableEq, Repr

/-- Modelled from the spec: the card-info snapshot type is declared in another file
of the package.  Two observations are made of it: its canonical string
(`String()`) and the cache document generated from it (`genCardConfig()`). -/
structure CardInfos where
  str : String
  cardConfig : String
deriving DecidableEq, Repr

/-- One call that leaves the switcher, or one entry into the launcher wrapper
`runWM`, in program order. -/
inductive Event where
  | showOSD (name : String)
  | runWM (wm : String) (replace : Bool)
  | sessionBus
  | runCommand (cmd : String) (args : List String)
  | saveUserConfig (cfg : userConfig)
  | emitWMChanged (payload : String)
  | loadSystemConfig
  | loadUserConfig
  | getCardInfos
  | loadCardInfosFromFile
  | doSaveCardInfos (cardConfig : String)
  | getPlatform
  | isRadeonExists
  | setupSWPlatform
  | isDriverLoadedCorrectly
  | getVideoEnv
  | correctWMByEnv
  | getSogouSkin
  | setSogouSkin (skin : String)
  | killallSogou
  | getSupportingWMCheck
  | getWMName (win : Nat)
deriving DecidableEq, Repr

/-- The answers of everything outside the switcher.  Helpers and constants of the
package that live in other files (`getCardInfos`, `getPlatform`,
`platformSW`, `sgDefaultSkin`, ...) are fields here, so every theorem holds for
each possible behaviour of them. -/
structure World where
  /-- `dbus.SessionBus()`: `none` when the connection is obtained. -/
  sessionBus : Option Error
  /-- `obj.Call("com.deepin.StartManager.RunCommand", 0, cmd, args).Store()`. -/
  runCommand : String → List String → Option Error
  /-- The system config in force once `loadSystemConfig` has run, given the
  previous one. -/
  loadSystemConfig : systemConfig → systemConfig
  /-- The persisted user config, or the load error. -/
  loadUserConfig : Except Error userConfig
  getCardInfos : Except Error CardInfos
  loadCardInfosFromFile : Except Error CardInfos
  getPlatform : Except Error String
  platformSW : String
  isRadeonExists : Bool
  isDriverLoadedCorrectly : Bool
  getVideoEnv : Except Error String
  /-- `correctWMByEnv(env, &support)`: the value left in `support`. -/
  correctWMByEnv : String → Bool → Bool
  /-- `skin, _ := getSogouSkin(filename)`: the error is discarded by the caller. -/
  getSogouSkin : String
  sgDefaultSkin : String
  setSogouSkin : Option Error
  /-- `ewmh.GetSupportingWMCheck(conn).Reply(conn)`. -/
  GetSupportingWMCheck : Except Error Nat
  /-- `ewmh.GetWMName(conn, win).Reply(conn)`. -/
  GetWMName : Nat → Except Error String

/-- What a method leaves behind: the receiver, the returned value, the calls made. -/
structure Ret (α : Type) where
  st : Switcher
  val : α
  trace : List Event

def Switcher.allowSwitch (s : Switcher) : Bool :=
  s.systemConfig.AllowSwitch

def Switcher.getWM (s : Switcher) : String :=
  if s.allowSwitch then s.userConfig.LastWM else deepin2DWM

def Switcher.shouldWait (s : Switcher) : Bool :=
  if s.allowSwitch then s.userConfig.Wait else true

def Switcher.emitSignalWMChanged (wm : String) : List Event :=
  [Event.emitWMChanged (wmNameMap wm)]

def Switcher.setCurrentWM (s : Switcher) (name : String) : Ret Unit :=
  if s.currentWM ≠ name then
    { st := { s with currentWM := name }, val := (),
      trace := Switcher.emitSignalWMChanged name }
  else
    { st := s, val := (), trace := [] }

def Switcher.CurrentWM (s : Switcher) : String :=
  let wmName := wmNameMap s.currentWM
  if wmName = "" then "unknown" else wmName

/-- The slice `args` built in `runWM`. -/
def runWMArgs (wm : String) (replace : Bool) : List String :=
  let args := ["GDK_SCALE=1", wm]
  if replace then args ++ ["--replace"] else args

def Switcher.runWM (w : World) (s : Switcher) (wm : String) (replace : Bool) :
    Ret (Option Error) :=
  match w.sessionBus with
  | some err =>
    { st := s, val := some err, trace := [Event.runWM wm replace, Event.sessionBus] }
  | none =>
    let args := runWMArgs wm replace
    match w.runCommand "env" args with
    | some err =>
      { st := s, val := some err,
        trace := [Event.runWM wm replace, Event.sessionBus, Event.runCommand "env" args] }
    | none =>
      { st := s, val := none,
        trace := [Event.runWM wm replace, Event.sessionBus, Event.runCommand "env" args] }

/-- Modelled from the spec: `setLastWM` lives in another file of the package.  The spec
has the callers "record" the given identity as `lastWM` "in memory only". -/
def Switcher.setLastWM (s : Switcher) (wm : String) : Switcher :=
  { s with userConfig := { s.userConfig with LastWM := wm } }

/-- Modelled from the spec: `saveUserConfig` lives in another file of the package.  The
spec's `saveUserConfig(UserConfig)` persists the user config held by the
switcher; every caller in the source discards its result. -/
def Switcher.saveUserConfig (s : Switcher) : List Event :=
  [Event.saveUserConfig s.userConfig]

def Switcher.RestartWM (w : World) (s : Switcher) : Ret (Option Error) :=
  s.runWM w s.getWM true

def Switcher.adjustSogouSkin (w : World) (s : Switcher) : Ret Unit :=
  let skin := w.getSogouSkin
  if skin ≠ "" ∧ s.getWM = deepin3DWM then
    { st := s, val := (), trace := [Event.getSogouSkin] }
  else if skin = w.sgDefaultSkin then
    { st := s, val := (), trace := [Event.getSogouSkin] }
  else
    match w.setSogouSkin with
    | some _ =>
      { st := s, val := (),
        trace := [Event.getSogouSkin, Event.setSogouSkin w.sgDefaultSkin] }
    | none =>
      { st := s, val := (),
        trace := [Event.getSogouSkin, Event.setSogouSkin w.sgDefaultSkin,
                  Event.killallSogou] }

def Switcher.Start2DWM (w : World) (s : Switcher) : Ret (Option Error) :=
  let r := s.runWM w deepin2DWM false
  match r.val with
  | some err => { st := r.st, val := some err, trace := r.trace }
  | none =>
    { st := r.st.setLastWM deepin2DWM, val := none, trace := r.trace }

/-- The local `nextWM` of `RequestSwitchWM`, from the local `currentWM`: it starts
as `deepin3DWM` and is reassigned in the two branches of the `if`. -/
def nextWM (currentWM : String) : String :=
  if currentWM = deepin3DWM then deepin2DWM
  else if currentWM = deepin2DWM then deepin3DWM
  else deepin3DWM

def Switcher.RequestSwitchWM (w : World) (s : Switcher) : Ret (Option Error) :=
  if s.allowSwitch = false then
    { st := s, val := some "refused to switch wm",
      trace := [Event.showOSD osdSwitchWMError] }
  else
    let currentWM := s.currentWM
    let r := s.runWM w (nextWM currentWM) true
    match r.val with
    | some err => { st := r.st, val := some err, trace := r.trace }
    | none =>
      let s1 := r.st.setLastWM (nextWM currentWM)
      let t1 := s1.saveUserConfig
      let r2 := s1.adjustSogouSkin w
      { st := r2.st, val := none, trace := r.trace ++ t1 ++ r2.trace }

def Switcher.isCardChanged (w : World) (s : Switcher) : Ret Bool :=
  match w.getCardInfos with
  | .error _ => { st := s, val := true, trace := [Event.getCardInfos] }
  | .ok actualCardInfos =>
    let actualCardInfosStr := actualCardInfos.str
    let change : Bool :=
      match w.loadCardInfosFromFile with
      | .error _ => true
      | .ok cacheCardInfos =>
        let cacheCardInfosStr := cacheCardInfos.str
        if actualCardInfosStr ≠ cacheCardInfosStr then true else false
    if change then
      { st := s, val := change,
        trace := [Event.getCardInfos, Event.loadCardInfosFromFile,
                  Event.doSaveCardInfos actualCardInfos.cardConfig] }
    else
      { st := s, val := change,
        trace := [Event.getCardInfos, Event.loadCardInfosFromFile] }

def Switcher.supportRunGoodWM (w : World) (s : Switcher) : Ret Bool :=
  let r1 : Bool × List Event :=
    match w.getPlatform with
    | .ok platform =>
      if platform = w.platformSW then
        if w.isRadeonExists = false then
          (false, [Event.getPlatform, Event.isRadeonExists, Event.setupSWPlatform])
        else (true, [Event.getPlatform, Event.isRadeonExists])
      else (true, [Event.getPlatform])
    | .error _ => (true, [Event.getPlatform])
  let support := r1.1
  if w.isDriverLoadedCorrectly = false then
    { st := s, val := false, trace := r1.2 ++ [Event.isDriverLoadedCorrectly] }
  else
    match w.getVideoEnv with
    | .ok env =>
      { st := s, val := w.correctWMByEnv env support,
        trace := r1.2 ++ [Event.isDriverLoadedCorrectly, Event.getVideoEnv,
                          Event.correctWMByEnv] }
    | .error _ =>
      { st := s, val := support,
        trace := r1.2 ++ [Event.isDriverLoadedCorrectly, Event.getVideoEnv] }

def Switcher.initUserConfig (w : World) (s : Switcher) : Ret Unit :=
  let r := s.supportRunGoodWM w
  let s1 : Switcher :=
    if r.val then { r.st with userConfig := { LastWM := deepin3DWM, Wait := true } }
    else { r.st with userConfig := { LastWM := deepin2DWM, Wait := true } }
  { st := s1, val := (), trace := r.trace ++ s1.saveUserConfig }

/-- Modelled from the spec: `loadSystemConfig` lives in another file of the package.
The spec has `init` "load SystemConfig"; the document in force afterwards is
whatever the world supplies. -/
def Switcher.loadSystemConfig (w : World) (s : Switcher) : Ret Unit :=
  { st := { s with systemConfig := w.loadSystemConfig s.systemConfig }, val := (),
    trace := [Event.loadSystemConfig] }

/-- Modelled from the spec: `loadUserConfig` lives in another file of the package.  The
spec's `loadUserConfig() -> UserConfig | Error` either installs the persisted
user config or reports the failure. -/
def Switcher.loadUserConfig (w : World) (s : Switcher) : Ret (Option Error) :=
  match w.loadUserConfig with
  | .ok cfg =>
    { st := { s with userConfig := cfg }, val := none, trace := [Event.loadUserConfig] }
  | .error err => { st := s, val := some err, trace := [Event.loadUserConfig] }

def Switcher.init (w : World) (s : Switcher) : Ret Unit :=
  let r0 := s.loadSystemConfig w
  if r0.st.allowSwitch then
    let r1 := r0.st.isCardChanged w
    let cardChanged := r1.val
    if r1.st.wmChooserLaunched = false ∧ cardChanged = true then
      let r2 := r1.st.initUserConfig w
      { st := r2.st, val := (), trace := r0.trace ++ r1.trace ++ r2.trace }
    else
      let r2 := r1.st.loadUserConfig w
      match r2.val with
      | some _ =>
        let r3 := r2.st.initUserConfig w
        { st := r3.st, val := (),
          trace := r0.trace ++ r1.trace ++ r2.trace ++ r3.trace }
      | none => { st := r2.st, val := (), trace := r0.trace ++ r1.trace ++ r2.trace }
  else
    { st := r0.st, val := (), trace := r0.trace }

/-- Go `strings.HasPrefix` on the character lists: `sub` starts `s`. -/
def startsWithChars : List Char → List Char → Bool
  | _, [] => true
  | [], _ :: _ => false
  | c :: s, d :: sub => decide (c = d) && startsWithChars s sub

/-- Search for `sub` at every offset of `s`. -/
def containsChars : List Char → List Char → Bool
  | [], sub => startsWithChars [] sub
  | c :: s, sub => startsWithChars (c :: s) sub || containsChars s sub

/-- Go `strings.Contains(s, substr)`.  Go compares bytes; on well-formed UTF-8 an
occurrence of a well-formed needle starts and ends on character boundaries, so
comparing characters finds the same occurrences. -/
def stringsContains (s substr : String) : Bool :=
  containsChars s.data substr.data

/-- The fields of `x.PropertyNotifyEvent` read by the handler. -/
structure PropertyNotifyEvent where
  Window : Nat
  Atom : Nat
  State : Nat
deriving DecidableEq, Repr

/-- X11 core protocol: `PropertyNotify` state `NewValue`. -/
def PropertyNewValue : Nat := 0

/-- X11 core protocol: `PropertyNotify` state `Deleted`. -/
def PropertyDelete : Nat := 1

/-- The closure `handlePropNotifyEvent` of `listenWMChanged`; the captured
`atomNetSupportingWMCheck` and `root` are arguments. -/
def Switcher.handlePropNotifyEvent (w : World) (atomNetSupportingWMCheck root : Nat)
    (s : Switcher) (event : PropertyNotifyEvent) : Ret Unit :=
  if event.Atom ≠ atomNetSupportingWMCheck ∨ event.Window ≠ root then
    { st := s, val := (), trace := [] }
  else if event.State = PropertyNewValue then
    match w.GetSupportingWMCheck with
    | .error _ => { st := s, val := (), trace := [Event.getSupportingWMCheck] }
    | .ok win =>
      match w.GetWMName win with
      | .error _ =>
        { st := s, val := (), trace := [Event.getSupportingWMCheck, Event.getWMName win] }
      | .ok wmName =>
        let currentWM :=
          if wmName = "Metacity" then deepin2DWM
          else if stringsContains wmName "DeepinGala" then deepin3DWM
          else unknownWM
        let r := s.setCurrentWM currentWM
        { st := r.st, val := (),
          trace := [Event.getSupportingWMCheck, Event.getWMName win] ++ r.trace }
  else if event.State = PropertyDelete then
    { st := s, val := (), trace := [] }
  else
    { st := s, val := (), trace := [] }

/-! ## Observations on traces -/

/-- Entries into the launcher wrapper `runWM`. -/
def launches : List Event → List (String × Bool)
  | [] => []
  | Event.runWM wm replace :: t => (wm, replace) :: launches t
  | _ :: t => launches t

/-- Argument lists of the `RunCommand` calls sent to the start manager. -/
def rpcCalls : List Event → List (String × List String)
  | [] => []
  | Event.runCommand cmd args :: t => (cmd, args) :: rpcCalls t
  | _ :: t => rpcCalls t

/-- User configs handed to `saveUserConfig`. -/
def savedConfigs : List Event → List userConfig
  | [] => []
  | Event.saveUserConfig cfg :: t => cfg :: savedConfigs t
  | _ :: t => savedConfigs t

/-- Payloads of the `WMChanged` signals. -/
def wmChangedPayloads : List Event → List String
  | [] => []
  | Event.emitWMChanged p :: t => p :: wmChangedPayloads t
  | _ :: t => wmChangedPayloads t

/-- Snapshots handed to `doSaveCardInfos`. -/
def savedCardInfos : List Event → List String
  | [] => []
  | Event.doSaveCardInfos c :: t => c :: savedCardInfos t
  | _ :: t => savedCardInfos t

/-! ## Sample worlds and states -/

def sampleWorld : World where
  sessionBus := none
  runCommand := fun _ _ => none
  loadSystemConfig := fun c => c
  loadUserConfig := .ok { LastWM := deepin2DWM, Wait := false }
  getCardInfos := .ok { str := "card-a", cardConfig := "card-a.json" }
  loadCardInfosFromFile := .error "no such file"
  getPlatform := .ok "x86_64"
  platformSW := "sw_64"
  isRadeonExists := true
  isDriverLoadedCorrectly := true
  getVideoEnv := .error "no video env"
  correctWMByEnv := fun _ b => b
  getSogouSkin := ""
  sgDefaultSkin := "default"
  setSogouSkin := none
  GetSupportingWMCheck := .ok 7
  GetWMName := fun _ => .ok "Metacity"

def sampleSwitcher : Switcher where
  userConfig := { LastWM := deepin3DWM, Wait := true }
  systemConfig := { AllowSwitch := true }
  wmStartupCount := 0
  currentWM := deepin3DWM
  wmChooserLaunched := false

/-- A switcher whose administrator policy forbids switching. -/
def refusedSwitcher : Switcher :=
  { sampleSwitcher with systemConfig := { AllowSwitch := false } }

/-- A switcher that has only seen a window manager it does not know. -/
def unknownSwitcher : Switcher :=
  { sampleSwitcher with currentWM := unknownWM }

/-- A switcher whose chooser dialog was already launched in this session. -/
def chooserSwitcher : Switcher :=
  { sampleSwitcher with wmChooserLaunched := true }

/-- A world in which the start manager rejects the command. -/
def launchFailWorld : World :=
  { sampleWorld with runCommand := fun _ _ => some "RunCommand failed" }

/-- A world in which the hardware probe fails. -/
def probeFailWorld : World :=
  { sampleWorld with getCardInfos := .error "lspci failed" }

/-- A world whose cached card info equals the probed one. -/
def sameCardWorld : World :=
  { sampleWorld with
    loadCardInfosFromFile := .ok { str := "card-a", cardConfig := "card-a.json" } }

/-- A world whose window manager advertises a DeepinGala name. -/
def galaWorld : World :=
  { sampleWorld with GetWMName := fun _ => .ok "DeepinGala 3.0" }

/-- A world in which the session bus cannot be reached. -/
def busDownWorld : World :=
  { sampleWorld with sessionBus := some "no session bus" }

/-- A world whose persisted user config cannot be loaded and whose driver check
fails. -/
def noConfigWorld : World :=
  { sampleWorld with
    loadUserConfig := .error "no user config"
    isDriverLoadedCorrectly := false }

/-- A `PropertyNewValue` event for atom 5 on window 1. -/
def newValueEvent : PropertyNotifyEvent :=
  { Window := 1, Atom := 5, State := PropertyNewValue }

/-- A `PropertyDelete` event for atom 5 on window 1. -/
def deleteEvent : PropertyNotifyEvent :=
  { Window := 1, Atom := 5, State := PropertyDelete }

/-! ## The launcher wrapper -/

theorem runWM_no_bus (w : World) (s : Switcher) (wm : String) (replace : Bool)
    (err : Error) (hbus : w.sessionBus = some err) :
    s.runWM w wm replace =
      { st := s, val := some err, trace := [Event.runWM wm replace, Event.sessionBus] } := by
  unfold Switcher.runWM
  rw [hbus]

theorem runWM_connected (w : World) (s : Switcher) (wm : String) (replace : Bool)
    (hbus : w.sessionBus = none) :
    s.runWM w wm replace =
      { st := s, val := w.runCommand "env" (runWMArgs wm replace),
        trace := [Event.runWM wm replace, Event.sessionBus,
                  Event.runCommand "env" (runWMArgs wm replace)] } := by
  unfold Switcher.runWM
  rw [hbus]
  dsimp only
  cases h : w.runCommand "env" (runWMArgs wm replace) <;> rfl

theorem runWM_st (w : World) (s : Switcher) (wm : String) (replace : Bool) :
    (s.runWM w wm replace).st = s := by
  cases hbus : w.sessionBus with
  | none => rw [runWM_connected w s wm replace hbus]
  | some err => rw [runWM_no_bus w s wm replace err hbus]

theorem runWM_launches (w : World) (s : Switcher) (wm : String) (replace : Bool) :
    launches (s.runWM w wm replace).trace = [(wm, replace)] := by
  cases hbus : w.sessionBus with
  | none => rw [runWM_connected w s wm replace hbus]; rfl
  | some err => rw [runWM_no_bus w s wm replace err hbus]; rfl

theorem runWM_savedConfigs (w : World) (s : Switcher) (wm : String) (replace : Bool) :
    savedConfigs (s.runWM w wm replace).trace = [] := by
  cases hbus : w.sessionBus with
  | none => rw [runWM_connected w s wm replace hbus]; rfl
  | some err => rw [runWM_no_bus w s wm replace err hbus]; rfl

theorem runWM_no_sogou (w : World) (s : Switcher) (wm : String) (replace : Bool) :
    Event.getSogouSkin ∉ (s.runWM w wm replace).trace := by
  cases hbus : w.sessionBus with
  | none => rw [runWM_connected w s wm replace hbus]; simp
  | some err => rw [runWM_no_bus w s wm replace err hbus]; simp

theorem launches_append (a b : List Event) :
    launches (a ++ b) = launches a ++ launches b := by
  induction a with
  | nil => rfl
  | cons e t ih => cases e <;> simp [launches, ih]

theorem rpcCalls_append (a b : List Event) :
    rpcCalls (a ++ b) = rpcCalls a ++ rpcCalls b := by
  induction a with
  | nil => rfl
  | cons e t ih => cases e <;> simp [rpcCalls, ih]

theorem savedConfigs_append (a b : List Event) :
    savedConfigs (a ++ b) = savedConfigs a ++ savedConfigs b := by
  induction a with
  | nil => rfl
  | cons e t ih => cases e <;> simp [savedConfigs, ih]

theorem adjustSogouSkin_st (w : World) (s : Switcher) :
    (s.adjustSogouSkin w).st = s := by
  unfold Switcher.adjustSogouSkin
  simp only
  split
  · rfl
  · split
    · rfl
    · split <;> rfl

theorem adjustSogouSkin_quiet (w : World) (s : Switcher) :
    launches (s.adjustSogouSkin w).trace = [] ∧
    rpcCalls (s.adjustSogouSkin w).trace = [] ∧
    savedConfigs (s.adjustSogouSkin w).trace = [] := by
  unfold Switcher.adjustSogouSkin
  simp only
  split
  · exact ⟨rfl, rfl, rfl⟩
  · split
    · exact ⟨rfl, rfl, rfl⟩
    · split <;> exact ⟨rfl, rfl, rfl⟩

/-! ## `RequestSwitchWM` -/

theorem RequestSwitchWM_refused (w : World) (s : Switcher)
    (h : s.systemConfig.AllowSwitch = false) :
    s.RequestSwitchWM w =
      { st := s, val := some "refused to switch wm",
        trace := [Event.showOSD osdSwitchWMError] } := by
  unfold Switcher.RequestSwitchWM Switcher.allowSwitch
  rw [if_pos h]

theorem RequestSwitchWM_launch_failed (w : World) (s : Switcher) (err : Error)
    (h : s.systemConfig.AllowSwitch = true)
    (hl : (s.runWM w (nextWM s.currentWM) true).val = some err) :
    s.RequestSwitchWM w =
      { st := s, val := some err, trace := (s.runWM w (nextWM s.currentWM) true).trace } := by
  unfold Switcher.RequestSwitchWM Switcher.allowSwitch
  rw [if_neg (by simp [h])]
  simp only [hl, runWM_st]

theorem RequestSwitchWM_launched (w : World) (s : Switcher)
    (h : s.systemConfig.AllowSwitch = true)
    (hl : (s.runWM w (nextWM s.currentWM) true).val = none) :
    s.RequestSwitchWM w =
      { st := s.setLastWM (nextWM s.currentWM), val := none,
        trace := (s.runWM w (nextWM s.currentWM) true).trace ++
          [Event.saveUserConfig (s.setLastWM (nextWM s.currentWM)).userConfig] ++
          ((s.setLastWM (nextWM s.currentWM)).adjustSogouSkin w).trace } := by
  unfold Switcher.RequestSwitchWM Switcher.allowSwitch
  rw [if_neg (by simp [h])]
  simp only [hl, runWM_st, adjustSogouSkin_st, Switcher.saveUserConfig]

theorem adjustSogouSkin_starts (w : World) (s : Switcher) :
    ∃ rest, (s.adjustSogouSkin w).trace = Event.getSogouSkin :: rest := by
  unfold Switcher.adjustSogouSkin
  simp only
  split
  · exact ⟨_, rfl⟩
  · split
    · exact ⟨_, rfl⟩
    · split <;> exact ⟨_, rfl⟩

/-- C1: whenever `systemConfig.AllowSwitch` is false, `RequestSwitchWM` returns the
non-nil refusal error, its only outside call is `showOSD("SwitchWMError")`, so the
launcher (`runWM`, the session bus, `RunCommand`) is never entered and
`saveUserConfig` is never called, and the switcher, in particular `currentWM` and
`userConfig.LastWM`, is left as it was. -/
theorem C1_request_refused_when_switch_forbidden (w : World) (s : Switcher)
    (h : s.systemConfig.AllowSwitch = false) :
    (s.RequestSwitchWM w).val = some "refused to switch wm" ∧
    (s.RequestSwitchWM w).val ≠ none ∧
    (s.RequestSwitchWM w).trace = [Event.showOSD osdSwitchWMError] ∧
    launches (s.RequestSwitchWM w).trace = [] ∧
    Event.sessionBus ∉ (s.RequestSwitchWM w).trace ∧
    rpcCalls (s.RequestSwitchWM w).trace = [] ∧
    savedConfigs (s.RequestSwitchWM w).trace = [] ∧
    (s.RequestSwitchWM w).st = s ∧
    (s.RequestSwitchWM w).st.currentWM = s.currentWM ∧
    (s.RequestSwitchWM w).st.userConfig.LastWM = s.userConfig.LastWM := by
  rw [RequestSwitchWM_refused w s h]
  refine ⟨rfl, by simp, rfl, rfl, by simp, rfl, rfl, rfl, rfl, rfl⟩

theorem C1_request_refused_witness :
    refusedSwitcher.systemConfig.AllowSwitch = false ∧
    (refusedSwitcher.RequestSwitchWM sampleWorld).val = some "refused to switch wm" ∧
    (refusedSwitcher.RequestSwitchWM sampleWorld).trace = [Event.showOSD "SwitchWMError"] :=
  ⟨rfl,
   (C1_request_refused_when_switch_forbidden sampleWorld refusedSwitcher rfl).1,
   (C1_request_refused_when_switch_forbidden sampleWorld refusedSwitcher rfl).2.2.1⟩

/-- C2: whenever switching is allowed, `RequestSwitchWM` enters the launcher exactly
once, for the toggle target and with `replace` set, which makes the launcher
arguments `GDK_SCALE=1 target --replace`; the target is `deepin-metacity` when
`currentWM` is `deepin-wm`, `deepin-wm` when `currentWM` is `deepin-metacity`, and
`deepin-wm` for every other `currentWM`.  Over a connected session bus that launch
is exactly one `RunCommand` call with these arguments; a launch that cannot reach
the session bus fails with the connection error before the call is sent. -/
theorem C2_request_launches_toggle_target (w : World) (s : Switcher)
    (h : s.systemConfig.AllowSwitch = true) :
    ∃ target : String,
      (s.currentWM = deepin3DWM → target = deepin2DWM) ∧
      (s.currentWM = deepin2DWM → target = deepin3DWM) ∧
      (s.currentWM ≠ deepin3DWM → s.currentWM ≠ deepin2DWM → target = deepin3DWM) ∧
      launches (s.RequestSwitchWM w).trace = [(target, true)] ∧
      runWMArgs target true = ["GDK_SCALE=1", target, "--replace"] ∧
      (w.sessionBus = none →
        rpcCalls (s.RequestSwitchWM w).trace =
          [("env", ["GDK_SCALE=1", target, "--replace"])]) ∧
      (∀ err, w.sessionBus = some err →
        rpcCalls (s.RequestSwitchWM w).trace = [] ∧
        (s.RequestSwitchWM w).val = some err) := by
  refine ⟨nextWM s.currentWM, ?_, ?_, ?_, ?_, rfl, ?_, ?_⟩
  · intro hc
    simp [nextWM, hc]
  · intro hc
    rw [hc]
    decide
  · intro h3 h2
    simp [nextWM, h3, h2]
  · cases hl : (s.runWM w (nextWM s.currentWM) true).val with
    | some err =>
      rw [RequestSwitchWM_launch_failed w s err h hl]
      exact runWM_launches w s _ true
    | none =>
      rw [RequestSwitchWM_launched w s h hl]
      simp only [launches_append, runWM_launches, (adjustSogouSkin_quiet w _).1]
      rfl
  · intro hbus
    cases hl : (s.runWM w (nextWM s.currentWM) true).val with
    | some err =>
      rw [RequestSwitchWM_launch_failed w s err h hl, runWM_connected w s _ true hbus]
      rfl
    | none =>
      rw [RequestSwitchWM_launched w s h hl]
      simp only [rpcCalls_append, (adjustSogouSkin_quiet w _).2.1]
      rw [runWM_connected w s _ true hbus]
      rfl
  · intro err hbus
    have hl : (s.runWM w (nextWM s.currentWM) true).val = some err := by
      rw [runWM_no_bus w s _ true err hbus]
    rw [RequestSwitchWM_launch_failed w s err h hl, runWM_no_bus w s _ true err hbus]
    exact ⟨rfl, rfl⟩

theorem C2_request_toggle_witness :
    unknownSwitcher.systemConfig.AllowSwitch = true ∧
    launches (unknownSwitcher.RequestSwitchWM sampleWorld).trace = [("deepin-wm", true)] ∧
    rpcCalls (unknownSwitcher.RequestSwitchWM sampleWorld).trace =
      [("env", ["GDK_SCALE=1", "deepin-wm", "--replace"])] := by
  obtain ⟨target, _, _, hother, hlaunch, _, hrpc, _⟩ :=
    C2_request_launches_toggle_target sampleWorld unknownSwitcher rfl
  have ht : target = deepin3DWM := hother (by decide) (by decide)
  subst ht
  exact ⟨rfl, hlaunch, hrpc rfl⟩

/-- C3: whenever switching is allowed, `RequestSwitchWM` returns exactly what the
launcher call `runWM(nextWM, true)` returns, so it fails if and only if the launch
fails.  On a failed launch the switcher (with `userConfig.LastWM`) is unchanged and
nothing follows the launcher calls: no `saveUserConfig`, no sogou-skin adjustment.
On a successful launch `userConfig.LastWM` is the toggle target, `saveUserConfig`
is called once, right after the launcher calls, with that config, the sogou-skin
adjustment follows, and `nil` is returned for every outcome of that adjustment. -/
theorem C3_request_commits_only_after_launch (w : World) (s : Switcher)
    (h : s.systemConfig.AllowSwitch = true) :
    (s.RequestSwitchWM w).val = (s.runWM w (nextWM s.currentWM) true).val ∧
    ((s.RequestSwitchWM w).val ≠ none ↔ (s.runWM w (nextWM s.currentWM) true).val ≠ none) ∧
    (∀ err, (s.runWM w (nextWM s.currentWM) true).val = some err →
      (s.RequestSwitchWM w).val = some err ∧
      (s.RequestSwitchWM w).st = s ∧
      (s.RequestSwitchWM w).st.userConfig.LastWM = s.userConfig.LastWM ∧
      (s.RequestSwitchWM w).trace = (s.runWM w (nextWM s.currentWM) true).trace ∧
      savedConfigs (s.RequestSwitchWM w).trace = [] ∧
      Event.getSogouSkin ∉ (s.RequestSwitchWM w).trace) ∧
    ((s.runWM w (nextWM s.currentWM) true).val = none →
      (s.RequestSwitchWM w).val = none ∧
      (s.RequestSwitchWM w).st.userConfig.LastWM = nextWM s.currentWM ∧
      (s.RequestSwitchWM w).st.userConfig.Wait = s.userConfig.Wait ∧
      (s.RequestSwitchWM w).st.currentWM = s.currentWM ∧
      (s.RequestSwitchWM w).trace =
        (s.runWM w (nextWM s.currentWM) true).trace ++
          Event.saveUserConfig { LastWM := nextWM s.currentWM, Wait := s.userConfig.Wait } ::
          ((s.setLastWM (nextWM s.currentWM)).adjustSogouSkin w).trace ∧
      savedConfigs (s.RequestSwitchWM w).trace =
        [{ LastWM := nextWM s.currentWM, Wait := s.userConfig.Wait }]) := by
  have hfail : ∀ err, (s.runWM w (nextWM s.currentWM) true).val = some err →
      s.RequestSwitchWM w =
        { st := s, val := some err, trace := (s.runWM w (nextWM s.currentWM) true).trace } :=
    fun err hl => RequestSwitchWM_launch_failed w s err h hl
  have hok := RequestSwitchWM_launched w s h
  refine ⟨?_, ?_, ?_, ?_⟩
  · cases hl : (s.runWM w (nextWM s.currentWM) true).val with
    | some err => rw [hfail err hl]
    | none => rw [hok hl]
  · cases hl : (s.runWM w (nextWM s.currentWM) true).val with
    | some err => rw [hfail err hl]
    | none => rw [hok hl]
  · intro err hl
    rw [hfail err hl]
    exact ⟨rfl, rfl, rfl, rfl, runWM_savedConfigs w s _ true, runWM_no_sogou w s _ true⟩
  · intro hl
    rw [hok hl]
    refine ⟨rfl, rfl, rfl, rfl, ?_, ?_⟩
    · simp [Switcher.setLastWM]
    · simp only [savedConfigs_append, runWM_savedConfigs, (adjustSogouSkin_quiet w _).2.2]
      rfl

theorem C3_request_commit_witness :
    sampleSwitcher.systemConfig.AllowSwitch = true ∧
    (sampleSwitcher.RequestSwitchWM launchFailWorld).val = some "RunCommand failed" ∧
    (sampleSwitcher.RequestSwitchWM launchFailWorld).st = sampleSwitcher ∧
    (sampleSwitcher.RequestSwitchWM sampleWorld).val = none ∧
    (sampleSwitcher.RequestSwitchWM sampleWorld).st.userConfig.LastWM = "deepin-metacity" :=
  ⟨rfl,
   ((C3_request_commits_only_after_launch launchFailWorld sampleSwitcher rfl).2.2.1
      "RunCommand failed" rfl).1,
   ((C3_request_commits_only_after_launch launchFailWorld sampleSwitcher rfl).2.2.1
      "RunCommand failed" rfl).2.1,
   ((C3_request_commits_only_after_launch sampleWorld sampleSwitcher rfl).2.2.2 rfl).1,
   ((C3_request_commits_only_after_launch sampleWorld sampleSwitcher rfl).2.2.2 rfl).2.1⟩

/-! ## `Start2DWM` -/

/-- C6: in every prior state and for every launcher outcome `Start2DWM` never calls
`saveUserConfig`; it enters the launcher exactly once, for `deepin-metacity`
without `replace`, and every `RunCommand` call it sends is
`env GDK_SCALE=1 deepin-metacity`, the argument slice built for that launch
(exactly one such call once the session bus is connected).  It returns what the launcher returns: on success `nil`, with
`userConfig.LastWM` recorded as `deepin-metacity` and nothing else changed; on
failure the launcher's error, with the switcher unchanged. -/
theorem C6_start2DWM_never_saves (w : World) (s : Switcher) :
    savedConfigs (s.Start2DWM w).trace = [] ∧
    launches (s.Start2DWM w).trace = [(deepin2DWM, false)] ∧
    (∀ c ∈ rpcCalls (s.Start2DWM w).trace, c = ("env", ["GDK_SCALE=1", "deepin-metacity"])) ∧
    (w.sessionBus = none →
      rpcCalls (s.Start2DWM w).trace = [("env", ["GDK_SCALE=1", "deepin-metacity"])]) ∧
    (s.Start2DWM w).val = (s.runWM w deepin2DWM false).val ∧
    ((s.Start2DWM w).val = none →
      (s.Start2DWM w).st.userConfig.LastWM = deepin2DWM ∧
      (s.Start2DWM w).st = { s with userConfig := { s.userConfig with LastWM := deepin2DWM } }) ∧
    (∀ err, (s.runWM w deepin2DWM false).val = some err →
      (s.Start2DWM w).val = some err ∧ (s.Start2DWM w).st = s) ∧
    runWMArgs deepin2DWM false = ["GDK_SCALE=1", "deepin-metacity"] := by
  have htrace : (s.Start2DWM w).trace = (s.runWM w deepin2DWM false).trace := by
    unfold Switcher.Start2DWM
    dsimp only
    split <;> rfl
  have hval : (s.Start2DWM w).val = (s.runWM w deepin2DWM false).val := by
    unfold Switcher.Start2DWM
    dsimp only
    split
    · next h => rw [h]
    · next h => rw [h]
  have hst : (s.Start2DWM w).val = none →
      (s.Start2DWM w).st = s.setLastWM deepin2DWM := by
    intro hn
    rw [hval] at hn
    unfold Switcher.Start2DWM
    dsimp only
    rw [hn, runWM_st]
  refine ⟨?_, ?_, ?_, ?_, hval, ?_, ?_, rfl⟩
  · rw [htrace]
    exact runWM_savedConfigs w s _ false
  · rw [htrace]
    exact runWM_launches w s _ false
  · rw [htrace]
    cases hbus : w.sessionBus with
    | none =>
      rw [runWM_connected w s _ false hbus]
      intro c hc
      simpa [rpcCalls, runWMArgs, deepin2DWM] using hc
    | some err =>
      rw [runWM_no_bus w s _ false err hbus]
      intro c hc
      simp [rpcCalls] at hc
  · intro hbus
    rw [htrace, runWM_connected w s _ false hbus]
    rfl
  · intro hn
    rw [hst hn]
    exact ⟨rfl, rfl⟩
  · intro err hl
    refine ⟨by rw [hval, hl], ?_⟩
    unfold Switcher.Start2DWM
    dsimp only
    rw [hl, runWM_st]

theorem C6_start2DWM_witness :
    savedConfigs (sampleSwitcher.Start2DWM sampleWorld).trace = [] ∧
    rpcCalls (sampleSwitcher.Start2DWM sampleWorld).trace =
      [("env", ["GDK_SCALE=1", "deepin-metacity"])] ∧
    (sampleSwitcher.Start2DWM sampleWorld).st.userConfig.LastWM = "deepin-metacity" ∧
    (sampleSwitcher.Start2DWM launchFailWorld).val = some "RunCommand failed" :=
  ⟨(C6_start2DWM_never_saves sampleWorld sampleSwitcher).1,
   (C6_start2DWM_never_saves sampleWorld sampleSwitcher).2.2.2.1 rfl,
   ((C6_start2DWM_never_saves sampleWorld sampleSwitcher).2.2.2.2.2.1 rfl).1,
   ((C6_start2DWM_never_saves launchFailWorld sampleSwitcher).2.2.2.2.2.2.1
      "RunCommand failed" rfl).1⟩

/-! ## `setCurrentWM`, `CurrentWM` and the `WMChanged` signal -/

theorem setCurrentWM_changed (s : Switcher) (name : String) (h : s.currentWM ≠ name) :
    s.setCurrentWM name =
      { st := { s with currentWM := name }, val := (),
        trace := [Event.emitWMChanged (wmNameMap name)] } := by
  unfold Switcher.setCurrentWM Switcher.emitSignalWMChanged
  rw [if_pos h]

theorem setCurrentWM_same (s : Switcher) (name : String) (h : s.currentWM = name) :
    s.setCurrentWM name = { st := s, val := (), trace := [] } := by
  unfold Switcher.setCurrentWM
  rw [if_neg (by simp [h])]

theorem setCurrentWM_currentWM (s : Switcher) (name : String) :
    (s.setCurrentWM name).st.currentWM = name := by
  by_cases h : s.currentWM = name
  · rw [setCurrentWM_same s name h]
    exact h
  · rw [setCurrentWM_changed s name h]

/-- C8: `setCurrentWM(name)` with `name` different from `currentWM` emits exactly
one `WMChanged` signal and sets `currentWM` to `name`, touching nothing else; with
`name` equal to `currentWM` it emits nothing and changes nothing.  Hence of two
successive calls with the same identity the second emits nothing and leaves the
state as the first left it, and together they emit at most one signal. -/
theorem C8_setCurrentWM_idempotent (s : Switcher) (name : String) :
    (s.currentWM ≠ name →
      (s.setCurrentWM name).st = { s with currentWM := name } ∧
      (s.setCurrentWM name).trace.length = 1 ∧
      (wmChangedPayloads (s.setCurrentWM name).trace).length = 1) ∧
    (s.currentWM = name →
      (s.setCurrentWM name).st = s ∧ (s.setCurrentWM name).trace = []) ∧
    ((s.setCurrentWM name).st.setCurrentWM name).st = (s.setCurrentWM name).st ∧
    ((s.setCurrentWM name).st.setCurrentWM name).trace = [] ∧
    (wmChangedPayloads
      ((s.setCurrentWM name).trace ++
        ((s.setCurrentWM name).st.setCurrentWM name).trace)).length ≤ 1 := by
  have h2 := setCurrentWM_same (s.setCurrentWM name).st name (setCurrentWM_currentWM s name)
  refine ⟨?_, ?_, ?_, ?_, ?_⟩
  · intro h
    rw [setCurrentWM_changed s name h]
    exact ⟨rfl, rfl, rfl⟩
  · intro h
    rw [setCurrentWM_same s name h]
    exact ⟨rfl, rfl⟩
  · rw [h2]
  · rw [h2]
  · rw [h2]
    by_cases h : s.currentWM = name
    · rw [setCurrentWM_same s name h]
      simp [wmChangedPayloads]
    · rw [setCurrentWM_changed s name h]
      simp [wmChangedPayloads]

theorem C8_setCurrentWM_witness :
    (sampleSwitcher.setCurrentWM "deepin-metacity").st.currentWM = "deepin-metacity" ∧
    (sampleSwitcher.setCurrentWM "deepin-metacity").trace.length = 1 ∧
    (sampleSwitcher.setCurrentWM "deepin-wm").trace = [] ∧
    ((sampleSwitcher.setCurrentWM "deepin-metacity").st.setCurrentWM
      "deepin-metacity").trace = [] :=
  ⟨congrArg Switcher.currentWM
     ((C8_setCurrentWM_idempotent sampleSwitcher "deepin-metacity").1 (by decide)).1,
   ((C8_setCurrentWM_idempotent sampleSwitcher "deepin-metacity").1 (by decide)).2.1,
   ((C8_setCurrentWM_idempotent sampleSwitcher "deepin-wm").2.1 rfl).2,
   (C8_setCurrentWM_idempotent sampleSwitcher "deepin-metacity").2.2.2.1⟩

/-- C9 (evaluated at the failing input): a switcher on `deepin-wm` that is told the
identity `unknown` emits `WMChanged` with the empty string as payload, while
`CurrentWM` right afterwards returns `unknown`: the payload is the raw
`wmNameMap` entry, without the fallback that `CurrentWM` applies. -/
theorem C9_unknown_identity_payload_is_empty :
    sampleSwitcher.currentWM ≠ unknownWM ∧
    wmChangedPayloads (sampleSwitcher.setCurrentWM unknownWM).trace = [""] ∧
    (sampleSwitcher.setCurrentWM unknownWM).st.CurrentWM = "unknown" ∧
    wmChangedPayloads (sampleSwitcher.setCurrentWM unknownWM).trace ≠
      [(sampleSwitcher.setCurrentWM unknownWM).st.CurrentWM] := by
  decide

/-! ## The property watcher -/

theorem startsWithChars_iff (s sub : List Char) :
    startsWithChars s sub = true ↔ ∃ b, s = sub ++ b := by
  induction s generalizing sub with
  | nil =>
    cases sub with
    | nil => simp [startsWithChars]
    | cons d sub => simp [startsWithChars]
  | cons c s ih =>
    cases sub with
    | nil => simp [startsWithChars]
    | cons d sub =>
      simp only [startsWithChars, Bool.and_eq_true, decide_eq_true_eq, ih sub,
        List.cons_append, List.cons.injEq]
      constructor
      · rintro ⟨hcd, b, hb⟩
        exact ⟨b, hcd, hb⟩
      · rintro ⟨b, hcd, hb⟩
        exact ⟨hcd, b, hb⟩

theorem containsChars_iff (s sub : List Char) :
    containsChars s sub = true ↔ ∃ a b, s = a ++ sub ++ b := by
  induction s with
  | nil =>
    simp only [containsChars, startsWithChars_iff]
    constructor
    · rintro ⟨b, hb⟩
      exact ⟨[], b, by simpa using hb⟩
    · rintro ⟨a, b, hab⟩
      have h1 : a = [] ∧ sub = [] ∧ b = [] := by simpa using hab.symm
      exact ⟨[], by simp [h1.2.1]⟩
  | cons c s ih =>
    simp only [containsChars, Bool.or_eq_true, startsWithChars_iff, ih]
    constructor
    · rintro (⟨b, hb⟩ | ⟨a, b, hab⟩)
      · exact ⟨[], b, by simpa using hb⟩
      · exact ⟨c :: a, b, by simp [hab]⟩
    · rintro ⟨a, b, hab⟩
      cases a with
      | nil => exact Or.inl ⟨b, by simpa using hab⟩
      | cons x a =>
        simp only [List.cons_append, List.cons.injEq] at hab
        exact Or.inr ⟨a, b, hab.2⟩

/-- Go `strings.Contains` holds exactly when `substr` occurs inside `s`. -/
theorem stringsContains_iff (s substr : String) :
    stringsContains s substr = true ↔ ∃ a b, s.data = a ++ substr.data ++ b :=
  containsChars_iff s.data substr.data

theorem handlePropNotifyEvent_newValue (w : World) (atom root : Nat) (s : Switcher)
    (event : PropertyNotifyEvent) (win : Nat) (wmName : String)
    (hAtom : event.Atom = atom) (hWindow : event.Window = root)
    (hState : event.State = PropertyNewValue)
    (hWin : w.GetSupportingWMCheck = .ok win) (hName : w.GetWMName win = .ok wmName) :
    s.handlePropNotifyEvent w atom root event =
      { st := (s.setCurrentWM
          (if wmName = "Metacity" then deepin2DWM
           else if stringsContains wmName "DeepinGala" then deepin3DWM
           else unknownWM)).st,
        val := (),
        trace := [Event.getSupportingWMCheck, Event.getWMName win] ++
          (s.setCurrentWM
            (if wmName = "Metacity" then deepin2DWM
             else if stringsContains wmName "DeepinGala" then deepin3DWM
             else unknownWM)).trace } := by
  unfold Switcher.handlePropNotifyEvent
  rw [if_neg (by simp [hAtom, hWindow]), if_pos hState]
  simp only [hWin, hName]

theorem handlePropNotifyEvent_delete (w : World) (atom root : Nat) (s : Switcher)
    (event : PropertyNotifyEvent) (hState : event.State = PropertyDelete) :
    s.handlePropNotifyEvent w atom root event = { st := s, val := (), trace := [] } := by
  unfold Switcher.handlePropNotifyEvent
  split
  · rfl
  · rw [if_neg (by rw [hState]; decide)]

/-- C10: on a `PropertyNewValue` event for `_NET_SUPPORTING_WM_CHECK` on the root
window whose two queries succeed and read the name `wmName`, the handler does what
`setCurrentWM(identity)` does, where `identity` is `deepin-metacity` if `wmName` is
exactly `Metacity`, `deepin-wm` if `wmName` contains `DeepinGala`, and `unknown` for
every other name.  A `PropertyDelete` event makes no call and leaves the switcher,
in particular `currentWM`, unchanged. -/
theorem C10_watcher_resolves_wm_name (w : World) (atom root : Nat) (s : Switcher)
    (event : PropertyNotifyEvent) (win : Nat) (wmName : String)
    (hAtom : event.Atom = atom) (hWindow : event.Window = root) :
    (event.State = PropertyNewValue → w.GetSupportingWMCheck = .ok win →
      w.GetWMName win = .ok wmName →
      ∃ identity : String,
        (wmName = "Metacity" → identity = deepin2DWM) ∧
        ((∃ a b, wmName.data = a ++ "DeepinGala".data ++ b) → identity = deepin3DWM) ∧
        (wmName ≠ "Metacity" → (¬ ∃ a b, wmName.data = a ++ "DeepinGala".data ++ b) →
          identity = unknownWM) ∧
        (s.handlePropNotifyEvent w atom root event).st = (s.setCurrentWM identity).st ∧
        (s.handlePropNotifyEvent w atom root event).st.currentWM = identity ∧
        (s.handlePropNotifyEvent w atom root event).trace =
          [Event.getSupportingWMCheck, Event.getWMName win] ++
            (s.setCurrentWM identity).trace) ∧
    (event.State = PropertyDelete →
      (s.handlePropNotifyEvent w atom root event).st = s ∧
      (s.handlePropNotifyEvent w atom root event).st.currentWM = s.currentWM ∧
      (s.handlePropNotifyEvent w atom root event).trace = []) := by
  constructor
  · intro hState hWin hName
    rw [handlePropNotifyEvent_newValue w atom root s event win wmName hAtom hWindow hState
      hWin hName]
    refine ⟨_, ?_, ?_, ?_, rfl, setCurrentWM_currentWM s _, rfl⟩
    · intro hm
      rw [if_pos hm]
    · intro hc
      have hcontains : stringsContains wmName "DeepinGala" = true :=
        (stringsContains_iff wmName "DeepinGala").2 hc
      have hne : wmName ≠ "Metacity" := by
        intro hm
        rw [hm] at hcontains
        revert hcontains
        decide
      rw [if_neg hne, if_pos hcontains]
    · intro hne hc
      have hcontains : ¬ stringsContains wmName "DeepinGala" = true :=
        fun hcon => hc ((stringsContains_iff wmName "DeepinGala").1 hcon)
      rw [if_neg hne, if_neg hcontains]
  · intro hState
    rw [handlePropNotifyEvent_delete w atom root s event hState]
    exact ⟨rfl, rfl, rfl⟩

theorem C10_watcher_witness :
    (sampleSwitcher.handlePropNotifyEvent sampleWorld 5 1 newValueEvent).st.currentWM =
      "deepin-metacity" ∧
    (unknownSwitcher.handlePropNotifyEvent galaWorld 5 1 newValueEvent).st.currentWM =
      "deepin-wm" ∧
    (unknownSwitcher.handlePropNotifyEvent galaWorld 5 1 deleteEvent).st.currentWM =
      "unknown" := by
  refine ⟨?_, ?_, ?_⟩
  · obtain ⟨identity, hm, _, _, _, hcur, _⟩ :=
      (C10_watcher_resolves_wm_name sampleWorld 5 1 sampleSwitcher newValueEvent 7
        "Metacity" rfl rfl).1 rfl rfl rfl
    rw [hcur, hm rfl]
    rfl
  · obtain ⟨identity, _, hg, _, _, hcur, _⟩ :=
      (C10_watcher_resolves_wm_name galaWorld 5 1 unknownSwitcher newValueEvent 7
        "DeepinGala 3.0" rfl rfl).1 rfl rfl rfl
    rw [hcur, hg ⟨[], " 3.0".data, rfl⟩]
    rfl
  · exact ((C10_watcher_resolves_wm_name galaWorld 5 1 unknownSwitcher deleteEvent 7
      "DeepinGala 3.0" rfl rfl).2 rfl).2.1

/-! ## `isCardChanged` -/

theorem isCardChanged_probe_failed (w : World) (s : Switcher) (err : Error)
    (h : w.getCardInfos = .error err) :
    s.isCardChanged w = { st := s, val := true, trace := [Event.getCardInfos] } := by
  unfold Switcher.isCardChanged
  rw [h]

theorem isCardChanged_no_cache (w : World) (s : Switcher) (actual : CardInfos)
    (err : Error) (h : w.getCardInfos = .ok actual)
    (hc : w.loadCardInfosFromFile = .error err) :
    s.isCardChanged w =
      { st := s, val := true,
        trace := [Event.getCardInfos, Event.loadCardInfosFromFile,
                  Event.doSaveCardInfos actual.cardConfig] } := by
  unfold Switcher.isCardChanged
  rw [h]
  simp only [hc, if_true]

theorem isCardChanged_differs (w : World) (s : Switcher) (actual cache : CardInfos)
    (h : w.getCardInfos = .ok actual) (hc : w.loadCardInfosFromFile = .ok cache)
    (hne : actual.str ≠ cache.str) :
    s.isCardChanged w =
      { st := s, val := true,
        trace := [Event.getCardInfos, Event.loadCardInfosFromFile,
                  Event.doSaveCardInfos actual.cardConfig] } := by
  unfold Switcher.isCardChanged
  rw [h]
  simp only [hc, hne, ne_eq, not_false_eq_true, if_true]

theorem isCardChanged_equal (w : World) (s : Switcher) (actual cache : CardInfos)
    (h : w.getCardInfos = .ok actual) (hc : w.loadCardInfosFromFile = .ok cache)
    (heq : actual.str = cache.str) :
    s.isCardChanged w =
      { st := s, val := false,
        trace := [Event.getCardInfos, Event.loadCardInfosFromFile] } := by
  unfold Switcher.isCardChanged
  rw [h]
  simp [hc, heq]

/-- C7 (amended): when the hardware probe succeeds, `isCardChanged` hands the
probed snapshot to `doSaveCardInfos` exactly when it returns true, for every
outcome of the cache load: an unloadable cache or a cached canonical string
different from the probed one yields true with one write, equal canonical strings
yield false with no write.  When the hardware probe fails it returns true at once,
without loading the cache and without any write. -/
theorem C7_isCardChanged_saves_iff_changed_after_probe (w : World) (s : Switcher) :
    (∀ actual, w.getCardInfos = .ok actual →
      ((s.isCardChanged w).val = true ↔
        savedCardInfos (s.isCardChanged w).trace = [actual.cardConfig]) ∧
      ((s.isCardChanged w).val = false ↔ savedCardInfos (s.isCardChanged w).trace = []) ∧
      (∀ err, w.loadCardInfosFromFile = .error err →
        (s.isCardChanged w).val = true ∧
        savedCardInfos (s.isCardChanged w).trace = [actual.cardConfig]) ∧
      (∀ cache, w.loadCardInfosFromFile = .ok cache → actual.str = cache.str →
        (s.isCardChanged w).val = false ∧ savedCardInfos (s.isCardChanged w).trace = []) ∧
      (∀ cache, w.loadCardInfosFromFile = .ok cache → actual.str ≠ cache.str →
        (s.isCardChanged w).val = true ∧
        savedCardInfos (s.isCardChanged w).trace = [actual.cardConfig])) ∧
    (∀ err, w.getCardInfos = .error err →
      (s.isCardChanged w).val = true ∧
      (s.isCardChanged w).trace = [Event.getCardInfos] ∧
      savedCardInfos (s.isCardChanged w).trace = []) ∧
    (s.isCardChanged w).st = s := by
  refine ⟨?_, ?_, ?_⟩
  · intro actual h
    have hno : ∀ err, w.loadCardInfosFromFile = .error err →
        (s.isCardChanged w).val = true ∧
        savedCardInfos (s.isCardChanged w).trace = [actual.cardConfig] := by
      intro err hc
      rw [isCardChanged_no_cache w s actual err h hc]
      exact ⟨rfl, rfl⟩
    have heq : ∀ cache, w.loadCardInfosFromFile = .ok cache → actual.str = cache.str →
        (s.isCardChanged w).val = false ∧ savedCardInfos (s.isCardChanged w).trace = [] := by
      intro cache hc he
      rw [isCardChanged_equal w s actual cache h hc he]
      exact ⟨rfl, rfl⟩
    have hne : ∀ cache, w.loadCardInfosFromFile = .ok cache → actual.str ≠ cache.str →
        (s.isCardChanged w).val = true ∧
        savedCardInfos (s.isCardChanged w).trace = [actual.cardConfig] := by
      intro cache hc he
      rw [isCardChanged_differs w s actual cache h hc he]
      exact ⟨rfl, rfl⟩
    refine ⟨?_, ?_, hno, heq, hne⟩
    · cases hc : w.loadCardInfosFromFile with
      | error err => simp [(hno err hc).1, (hno err hc).2]
      | ok cache =>
        by_cases he : actual.str = cache.str
        · simp [(heq cache hc he).1, (heq cache hc he).2]
        · simp [(hne cache hc he).1, (hne cache hc he).2]
    · cases hc : w.loadCardInfosFromFile with
      | error err => simp [(hno err hc).1, (hno err hc).2]
      | ok cache =>
        by_cases he : actual.str = cache.str
        · simp [(heq cache hc he).1, (heq cache hc he).2]
        · simp [(hne cache hc he).1, (hne cache hc he).2]
  · intro err h
    rw [isCardChanged_probe_failed w s err h]
    exact ⟨rfl, rfl, rfl⟩
  · cases h : w.getCardInfos with
    | error err => rw [isCardChanged_probe_failed w s err h]
    | ok actual =>
      cases hc : w.loadCardInfosFromFile with
      | error err => rw [isCardChanged_no_cache w s actual err h hc]
      | ok cache =>
        by_cases he : actual.str = cache.str
        · rw [isCardChanged_equal w s actual cache h hc he]
        · rw [isCardChanged_differs w s actual cache h hc he]

theorem C7_isCardChanged_witness :
    ((sampleSwitcher.isCardChanged sampleWorld).val = true ∧
      savedCardInfos (sampleSwitcher.isCardChanged sampleWorld).trace = ["card-a.json"]) ∧
    ((sampleSwitcher.isCardChanged sameCardWorld).val = false ∧
      savedCardInfos (sampleSwitcher.isCardChanged sameCardWorld).trace = []) :=
  ⟨((C7_isCardChanged_saves_iff_changed_after_probe sampleWorld sampleSwitcher).1
      { str := "card-a", cardConfig := "card-a.json" } rfl).2.2.1 "no such file" rfl,
   ((C7_isCardChanged_saves_iff_changed_after_probe sameCardWorld sampleSwitcher).1
      { str := "card-a", cardConfig := "card-a.json" } rfl).2.2.2.1
      { str := "card-a", cardConfig := "card-a.json" } rfl rfl⟩

/-- C7 (counterexample): with a failing hardware probe `isCardChanged` returns true
and its only outside call is the probe itself, so no snapshot is written although
the result is true. -/
theorem C7_probe_failure_returns_true_without_write :
    (sampleSwitcher.isCardChanged probeFailWorld).val = true ∧
    (sampleSwitcher.isCardChanged probeFailWorld).trace = [Event.getCardInfos] ∧
    savedCardInfos (sampleSwitcher.isCardChanged probeFailWorld).trace = [] ∧
    ¬ ((sampleSwitcher.isCardChanged probeFailWorld).val = true →
        savedCardInfos (sampleSwitcher.isCardChanged probeFailWorld).trace ≠ []) := by
  decide

/-! ## `init` -/

theorem supportRunGoodWM_st (w : World) (s : Switcher) :
    (s.supportRunGoodWM w).st = s := by
  unfold Switcher.supportRunGoodWM
  dsimp only
  split
  · rfl
  · split <;> rfl

theorem supportRunGoodWM_indep (w : World) (s t : Switcher) :
    (s.supportRunGoodWM w).val = (t.supportRunGoodWM w).val ∧
    (s.supportRunGoodWM w).trace = (t.supportRunGoodWM w).trace := by
  unfold Switcher.supportRunGoodWM
  dsimp only
  split
  · exact ⟨rfl, rfl⟩
  · split <;> exact ⟨rfl, rfl⟩

theorem isCardChanged_indep (w : World) (s t : Switcher) :
    (s.isCardChanged w).val = (t.isCardChanged w).val ∧
    (s.isCardChanged w).trace = (t.isCardChanged w).trace := by
  unfold Switcher.isCardChanged
  split
  · exact ⟨rfl, rfl⟩
  · dsimp only
    split <;> exact ⟨rfl, rfl⟩

theorem isCardChanged_st (w : World) (s : Switcher) : (s.isCardChanged w).st = s := by
  unfold Switcher.isCardChanged
  split
  · rfl
  · dsimp only
    split <;> rfl

theorem initUserConfig_eq (w : World) (s : Switcher) :
    s.initUserConfig w =
      { st := { s with userConfig :=
                  { LastWM := if (s.supportRunGoodWM w).val = true then deepin3DWM
                              else deepin2DWM,
                    Wait := true } },
        val := (),
        trace := (s.supportRunGoodWM w).trace ++
          [Event.saveUserConfig
            { LastWM := if (s.supportRunGoodWM w).val = true then deepin3DWM
                        else deepin2DWM,
              Wait := true }] } := by
  unfold Switcher.initUserConfig Switcher.saveUserConfig
  dsimp only
  rw [supportRunGoodWM_st]
  cases (s.supportRunGoodWM w).val <;> simp

theorem init_forbidden (w : World) (s : Switcher)
    (h : (w.loadSystemConfig s.systemConfig).AllowSwitch = false) :
    s.init w =
      { st := { s with systemConfig := w.loadSystemConfig s.systemConfig }, val := (),
        trace := [Event.loadSystemConfig] } := by
  unfold Switcher.init Switcher.loadSystemConfig Switcher.allowSwitch
  dsimp only
  rw [if_neg (by simp [h])]

theorem init_fresh (w : World) (s : Switcher)
    (h : (w.loadSystemConfig s.systemConfig).AllowSwitch = true)
    (hchooser : s.wmChooserLaunched = false) (hcard : (s.isCardChanged w).val = true) :
    s.init w =
      { st := ({ s with systemConfig := w.loadSystemConfig s.systemConfig }.initUserConfig
                w).st,
        val := (),
        trace := [Event.loadSystemConfig] ++ (s.isCardChanged w).trace ++
          ({ s with systemConfig := w.loadSystemConfig s.systemConfig }.initUserConfig
            w).trace } := by
  unfold Switcher.init Switcher.loadSystemConfig Switcher.allowSwitch
  dsimp only
  rw [if_pos h]
  simp only [isCardChanged_st]
  rw [(isCardChanged_indep w _ s).1, (isCardChanged_indep w _ s).2,
    if_pos ⟨hchooser, hcard⟩]

theorem init_loaded (w : World) (s : Switcher) (cfg : userConfig)
    (h : (w.loadSystemConfig s.systemConfig).AllowSwitch = true)
    (hbranch : ¬ (s.wmChooserLaunched = false ∧ (s.isCardChanged w).val = true))
    (hload : w.loadUserConfig = .ok cfg) :
    s.init w =
      { st := { s with systemConfig := w.loadSystemConfig s.systemConfig,
                       userConfig := cfg },
        val := (),
        trace := [Event.loadSystemConfig] ++ (s.isCardChanged w).trace ++
          [Event.loadUserConfig] } := by
  unfold Switcher.init Switcher.loadSystemConfig Switcher.allowSwitch
  dsimp only
  rw [if_pos h]
  simp only [isCardChanged_st]
  rw [(isCardChanged_indep w _ s).1, (isCardChanged_indep w _ s).2, if_neg hbranch]
  simp only [Switcher.loadUserConfig, hload]

theorem init_load_failed (w : World) (s : Switcher) (err : Error)
    (h : (w.loadSystemConfig s.systemConfig).AllowSwitch = true)
    (hbranch : ¬ (s.wmChooserLaunched = false ∧ (s.isCardChanged w).val = true))
    (hload : w.loadUserConfig = .error err) :
    s.init w =
      { st := ({ s with systemConfig := w.loadSystemConfig s.systemConfig }.initUserConfig
                w).st,
        val := (),
        trace := [Event.loadSystemConfig] ++ (s.isCardChanged w).trace ++
          [Event.loadUserConfig] ++
          ({ s with systemConfig := w.loadSystemConfig s.systemConfig }.initUserConfig
            w).trace } := by
  unfold Switcher.init Switcher.loadSystemConfig Switcher.allowSwitch
  dsimp only
  rw [if_pos h]
  simp only [isCardChanged_st]
  rw [(isCardChanged_indep w _ s).1, (isCardChanged_indep w _ s).2, if_neg hbranch]
  simp only [Switcher.loadUserConfig, hload]

theorem isCardChanged_no_userConfig_load (w : World) (s : Switcher) :
    Event.loadUserConfig ∉ (s.isCardChanged w).trace := by
  unfold Switcher.isCardChanged
  split
  · simp
  · dsimp only
    split <;> simp

theorem supportRunGoodWM_no_userConfig_load (w : World) (s : Switcher) :
    Event.loadUserConfig ∉ (s.supportRunGoodWM w).trace := by
  unfold Switcher.supportRunGoodWM
  dsimp only
  have h1 : Event.loadUserConfig ∉
      (match w.getPlatform with
        | .ok platform =>
          if platform = w.platformSW then
            if w.isRadeonExists = false then
              (false, [Event.getPlatform, Event.isRadeonExists, Event.setupSWPlatform])
            else (true, [Event.getPlatform, Event.isRadeonExists])
          else (true, [Event.getPlatform])
        | .error _ => (true, [Event.getPlatform])).2 := by
    split
    · split
      · split <;> simp
      · simp
    · simp
  split
  · simpa using h1
  · split <;> simpa using h1

/-- C4 (amended): for every switcher with switching enabled and `wmChooserLaunched`
false for which `isCardChanged` reports a change, `init` installs the fresh default
computed by `initUserConfig` from the capability prober, `{deepin-wm, true}` when
`supportRunGoodWM` holds and `{deepin-metacity, true}` otherwise, without loading
the persisted user config, so whatever the persisted config and the previous
in-memory config are. -/
theorem C4_init_fresh_default_when_chooser_not_launched (w : World) (s : Switcher)
    (h : (w.loadSystemConfig s.systemConfig).AllowSwitch = true)
    (hchooser : s.wmChooserLaunched = false) (hcard : (s.isCardChanged w).val = true) :
    (s.init w).st.userConfig =
      { LastWM := if (s.supportRunGoodWM w).val = true then deepin3DWM else deepin2DWM,
        Wait := true } ∧
    (s.init w).st.userConfig = (s.initUserConfig w).st.userConfig ∧
    Event.loadUserConfig ∉ (s.init w).trace ∧
    (∀ persisted : Except Error userConfig,
      (s.init { w with loadUserConfig := persisted }).st.userConfig =
        (s.init w).st.userConfig) ∧
    (∀ previous : userConfig,
      ({ s with userConfig := previous }.init w).st.userConfig =
        (s.init w).st.userConfig) := by
  have hfresh : ∀ (w1 : World) (s1 : Switcher),
      (w1.loadSystemConfig s1.systemConfig).AllowSwitch = true →
      s1.wmChooserLaunched = false → (s1.isCardChanged w1).val = true →
      (s1.init w1).st.userConfig =
        { LastWM := if (s.supportRunGoodWM w1).val = true then deepin3DWM else deepin2DWM,
          Wait := true } := by
    intro w1 s1 h1 h2 h3
    rw [init_fresh w1 s1 h1 h2 h3, initUserConfig_eq]
    dsimp only
    rw [(supportRunGoodWM_indep w1 _ s).1]
  refine ⟨hfresh w s h hchooser hcard, ?_, ?_, ?_, ?_⟩
  · rw [hfresh w s h hchooser hcard, initUserConfig_eq]
  · rw [init_fresh w s h hchooser hcard, initUserConfig_eq]
    have h1 := isCardChanged_no_userConfig_load w s
    have h2 := supportRunGoodWM_no_userConfig_load w
      { s with systemConfig := w.loadSystemConfig s.systemConfig }
    simp only [List.mem_append, List.mem_singleton, List.mem_cons, not_or]
    simp [h1, h2]
  · intro persisted
    rw [hfresh w s h hchooser hcard]
    exact hfresh { w with loadUserConfig := persisted } s h hchooser hcard
  · intro previous
    rw [hfresh w s h hchooser hcard]
    refine hfresh w { s with userConfig := previous } h hchooser ?_
    rw [(isCardChanged_indep w _ s).1]
    exact hcard

theorem C4_init_fresh_default_witness :
    (sampleWorld.loadSystemConfig sampleSwitcher.systemConfig).AllowSwitch = true ∧
    sampleSwitcher.wmChooserLaunched = false ∧
    (sampleSwitcher.isCardChanged sampleWorld).val = true ∧
    (sampleSwitcher.init sampleWorld).st.userConfig =
      { LastWM := if (sampleSwitcher.supportRunGoodWM sampleWorld).val = true then deepin3DWM
                  else deepin2DWM,
        Wait := true } :=
  ⟨rfl, rfl, rfl,
   (C4_init_fresh_default_when_chooser_not_launched sampleWorld sampleSwitcher rfl rfl
      rfl).1⟩

/-- C4 (counterexample): with switching enabled, changed hardware and the chooser
already launched, `init` loads the persisted `{deepin-metacity, false}` and keeps
it, although the fresh default computed from the prober is `{deepin-wm, true}`. -/
theorem C4_chooser_launched_keeps_persisted_config :
    (chooserSwitcher.init sampleWorld).st.allowSwitch = true ∧
    chooserSwitcher.wmChooserLaunched = true ∧
    (chooserSwitcher.isCardChanged sampleWorld).val = true ∧
    sampleWorld.loadUserConfig = .ok { LastWM := "deepin-metacity", Wait := false } ∧
    (chooserSwitcher.initUserConfig sampleWorld).st.userConfig =
      { LastWM := "deepin-wm", Wait := true } ∧
    (chooserSwitcher.init sampleWorld).st.userConfig =
      { LastWM := "deepin-metacity", Wait := false } ∧
    (chooserSwitcher.init sampleWorld).st.userConfig ≠
      (chooserSwitcher.initUserConfig sampleWorld).st.userConfig := by
  refine ⟨by decide, by decide, by decide, rfl, by decide, by decide, by decide⟩

/-- C5: the decision table of `init`, with `AllowSwitch` read after
`loadSystemConfig`.  If it is false, `loadSystemConfig` is the only outside call
(no hardware-change check, no capability probe, no user-config load), the user
config is untouched and `getWM` is `deepin-metacity`.  If it is true,
`isCardChanged` runs first; then, if `wmChooserLaunched` is false and the hardware
changed, the fresh default is installed by `initUserConfig`; otherwise the
persisted user config is loaded and used verbatim when the load succeeds, and the
fresh default is installed when the load fails.  The fresh default is
`{deepin-wm, true}` when `supportRunGoodWM` is true and `{deepin-metacity, true}`
otherwise. -/
theorem C5_init_decision_table (w : World) (s : Switcher) :
    ((w.loadSystemConfig s.systemConfig).AllowSwitch = false →
      (s.init w).trace = [Event.loadSystemConfig] ∧
      (s.init w).st.userConfig = s.userConfig ∧
      (s.init w).st.getWM = deepin2DWM) ∧
    ((w.loadSystemConfig s.systemConfig).AllowSwitch = true →
      (∃ rest, (s.init w).trace =
        Event.loadSystemConfig :: ((s.isCardChanged w).trace ++ rest)) ∧
      (s.wmChooserLaunched = false ∧ (s.isCardChanged w).val = true →
        (s.init w).st.userConfig = (s.initUserConfig w).st.userConfig ∧
        (s.init w).trace =
          Event.loadSystemConfig ::
            ((s.isCardChanged w).trace ++ (s.initUserConfig w).trace)) ∧
      (¬ (s.wmChooserLaunched = false ∧ (s.isCardChanged w).val = true) →
        (∀ cfg, w.loadUserConfig = .ok cfg →
          (s.init w).st.userConfig = cfg ∧
          (s.init w).trace =
            Event.loadSystemConfig ::
              ((s.isCardChanged w).trace ++ [Event.loadUserConfig])) ∧
        (∀ err, w.loadUserConfig = .error err →
          (s.init w).st.userConfig = (s.initUserConfig w).st.userConfig ∧
          (s.init w).trace =
            Event.loadSystemConfig ::
              ((s.isCardChanged w).trace ++ Event.loadUserConfig ::
                (s.initUserConfig w).trace)))) ∧
    ((s.supportRunGoodWM w).val = true →
      (s.initUserConfig w).st.userConfig = { LastWM := deepin3DWM, Wait := true }) ∧
    ((s.supportRunGoodWM w).val = false →
      (s.initUserConfig w).st.userConfig = { LastWM := deepin2DWM, Wait := true }) ∧
    (s.init w).st.wmChooserLaunched = s.wmChooserLaunched ∧
    (s.init w).st.currentWM = s.currentWM := by
  have hinit : ∀ t : Switcher,
      (t.initUserConfig w).st.userConfig = (s.initUserConfig w).st.userConfig ∧
      (t.initUserConfig w).trace = (s.initUserConfig w).trace := by
    intro t
    rw [initUserConfig_eq w t, initUserConfig_eq w s]
    dsimp only
    rw [(supportRunGoodWM_indep w t s).1, (supportRunGoodWM_indep w t s).2]
    exact ⟨rfl, rfl⟩
  refine ⟨?_, ?_, ?_, ?_, ?_, ?_⟩
  · intro h
    rw [init_forbidden w s h]
    refine ⟨rfl, rfl, ?_⟩
    simp [Switcher.getWM, Switcher.allowSwitch, h]
  · intro h
    refine ⟨?_, ?_, ?_⟩
    · by_cases hb : s.wmChooserLaunched = false ∧ (s.isCardChanged w).val = true
      · rw [init_fresh w s h hb.1 hb.2]
        exact ⟨({ s with systemConfig := w.loadSystemConfig s.systemConfig }.initUserConfig
          w).trace, by simp⟩
      · cases hl : w.loadUserConfig with
        | ok cfg =>
          rw [init_loaded w s cfg h hb hl]
          exact ⟨[Event.loadUserConfig], by simp⟩
        | error err =>
          rw [init_load_failed w s err h hb hl]
          exact ⟨Event.loadUserConfig ::
            ({ s with systemConfig := w.loadSystemConfig s.systemConfig }.initUserConfig
              w).trace, by simp⟩
    · intro hb
      rw [init_fresh w s h hb.1 hb.2, (hinit _).1, (hinit _).2]
      exact ⟨rfl, by simp⟩
    · intro hb
      constructor
      · intro cfg hl
        rw [init_loaded w s cfg h hb hl]
        exact ⟨rfl, by simp⟩
      · intro err hl
        rw [init_load_failed w s err h hb hl, (hinit _).1, (hinit _).2]
        exact ⟨rfl, by simp⟩
  · intro hsup
    rw [initUserConfig_eq, hsup]
    rfl
  · intro hsup
    rw [initUserConfig_eq, hsup]
    rfl
  · cases h : (w.loadSystemConfig s.systemConfig).AllowSwitch with
    | false => rw [init_forbidden w s h]
    | true =>
      by_cases hb : s.wmChooserLaunched = false ∧ (s.isCardChanged w).val = true
      · rw [init_fresh w s h hb.1 hb.2, initUserConfig_eq]
      · cases hl : w.loadUserConfig with
        | ok cfg => rw [init_loaded w s cfg h hb hl]
        | error err => rw [init_load_failed w s err h hb hl, initUserConfig_eq]
  · cases h : (w.loadSystemConfig s.systemConfig).AllowSwitch with
    | false => rw [init_forbidden w s h]
    | true =>
      by_cases hb : s.wmChooserLaunched = false ∧ (s.isCardChanged w).val = true
      · rw [init_fresh w s h hb.1 hb.2, initUserConfig_eq]
      · cases hl : w.loadUserConfig with
        | ok cfg => rw [init_loaded w s cfg h hb hl]
        | error err => rw [init_load_failed w s err h hb hl, initUserConfig_eq]

theorem C5_witness_init_table :
    (refusedSwitcher.init sampleWorld).trace = [Event.loadSystemConfig] ∧
    (refusedSwitcher.init sampleWorld).st.getWM = "deepin-metacity" ∧
    (chooserSwitcher.init sampleWorld).st.userConfig =
      { LastWM := "deepin-metacity", Wait := false } ∧
    (chooserSwitcher.init noConfigWorld).st.userConfig =
      (chooserSwitcher.initUserConfig noConfigWorld).st.userConfig ∧
    (chooserSwitcher.initUserConfig noConfigWorld).st.userConfig =
      { LastWM := "deepin-metacity", Wait := true } :=
  ⟨((C5_init_decision_table sampleWorld refusedSwitcher).1 rfl).1,
   ((C5_init_decision_table sampleWorld refusedSwitcher).1 rfl).2.2,
   ((((C5_init_decision_table sampleWorld chooserSwitcher).2.1 rfl).2.2 (by decide)).1
      { LastWM := "deepin-metacity", Wait := false } rfl).1,
   ((((C5_init_decision_table noConfigWorld chooserSwitcher).2.1 rfl).2.2 (by decide)).2
      "no user config" rfl).1,
   (C5_init_decision_table noConfigWorld chooserSwitcher).2.2.2.1 rfl⟩

end Wm
